import Mathlib

set_option maxRecDepth 4000

/-!
Shallow embedding of the chord DHT node core (`tamto-labs/server`):
the node store (`src/libs/chord-core/src/node/store.rs`), the node service
(`src/libs/chord/src/service/mod.rs`) and the wire-address parsers
(`src/libs/capnp/src/parser/node.rs`, `src/libs/grpc/src/client.rs`).

Machine integers (`u64` identifiers, `u8` octets, `u16` segments and ports) are
embedded as `Nat`; the only arithmetic the code performs on them is comparison
and the finger-start addition, which is taken modulo `2 ^ 64` explicitly.
Rust panics (unguarded indexing, mutex poisoning aside) are embedded as `none`
of an `Option`-returning function.  Remote RPC clients are embedded as an
oracle record; each service operation additionally returns the list of remote
client calls it performed, in order.
-/

/-! ## Identifier space and addresses -/

/-- size of the identifier space: identifiers are `u64`, arithmetic is mod `2 ^ 64`. -/
def ringSize : Nat := 2 ^ 64

/-- model of `std::net::IpAddr`: an IPv4 address is four octets, an IPv6 address is
eight 16-bit segments (the order is the textual big-endian order). -/
inductive IpAddr where
  | v4 (a b c d : Nat)
  | v6 (s0 s1 s2 s3 s4 s5 s6 s7 : Nat)
deriving DecidableEq

/-- model of `std::net::SocketAddr`: an IP address together with a port. -/
structure SocketAddr where
  ip : IpAddr
  port : Nat
deriving DecidableEq

/-- all components of the address are in range for their Rust integer types
(octets are `u8`, segments and the port are `u16`). -/
def IpAddr.isValid : IpAddr → Bool
  | .v4 a b c d => a < 256 && b < 256 && c < 256 && d < 256
  | .v6 s0 s1 s2 s3 s4 s5 s6 s7 =>
      s0 < 65536 && s1 < 65536 && s2 < 65536 && s3 < 65536 &&
      s4 < 65536 && s5 < 65536 && s6 < 65536 && s7 < 65536

/-- a socket address is valid when its IP components and its port are in range. -/
def SocketAddr.isValid (s : SocketAddr) : Bool :=
  s.ip.isValid && s.port < 65536

/-! ## Node, Finger and the ring predicates

The `Node` / `Finger` / `NodeId` module of the chord library is not under
`src/` (only `store.rs` and `service/mod.rs` of that library are), so the
definitions below are modelled from the spec (§3, §4.1). -/

/-- a chord node: `{id: u64, addr: SocketAddr}` (spec §3). -/
structure Node where
  id : Nat
  addr : SocketAddr
deriving DecidableEq

/-- Modelled from the spec: `hash_address` is "a deterministic 64-bit digest of the
socket address" (§4.1); the digest function itself is not under `src/`, so every
definition and theorem that needs `Node::new` takes the digest as an explicit
`hash` argument. -/
def Node.new (hash : SocketAddr → Nat) (addr : SocketAddr) : Node :=
  { id := hash addr % ringSize, addr := addr }

/-- a finger-table entry: `{start: Identifier, node: Node}` (spec §3). -/
structure Finger where
  start : Nat
  node : Node
deriving DecidableEq

/-- Modelled from the spec: `between_exclusive(x, a, b)` of §4.1, the Rust
`Node::is_between_on_ring_exclusive` used by `Db::closest_preceding_node`.
Reference algorithm (§4.1): if `a < b`, return `a < x < b`; else return
`x > a OR x < b` (wrap-around).  Both endpoints are excluded; when `a == b`
the arc is the whole ring minus `a`. -/
def isBetweenOnRingExclusive (x a b : Nat) : Bool :=
  if a < b then decide (a < x) && decide (x < b)
  else decide (x > a) || decide (x < b)

/-- Modelled from the spec: `between_half_open(x, a, b)` of §4.1, the Rust
`Node::is_between_on_ring` used by `NodeService::find_successor`, `notify` and
`stabilize`.  Same as the exclusive predicate but the endpoint `b` is included. -/
def isBetweenOnRing (x a b : Nat) : Bool :=
  if a < b then decide (a < x) && decide (x ≤ b)
  else decide (x > a) || decide (x ≤ b)

/-- `FINGER_TABLE_SIZE`: the identifier width M = 64 (spec §3). -/
def fingerTableSize : Nat := 64

/-- Modelled from the spec: `start_i = (self.id + 2^i) mod 2^M` for finger index
`i ∈ [0, M)` (spec §3). -/
def fingerStart (selfId : Nat) (i : Nat) : Nat := (selfId + 2 ^ i) % ringSize

/-- Modelled from the spec: `Finger::init_finger_table(node)` — all `M` entries
initialized with `node` as the pointed-to node and the spec's start values
(spec §3: "all entries initialized with `node = self`"; the seed node passed by
`Db::new` is the node itself at construction). -/
def initFingerTable (node : Node) : List Finger :=
  (List.range fingerTableSize).map (fun i => { start := fingerStart node.id i, node := node })

/-! ## The node store (`src/libs/chord-core/src/node/store.rs`)

The `State` record guarded by the store mutex.  `set_successor_list` truncates
at `successor_list.capacity()`, the Vec's LIVE capacity, so that capacity is
tracked as a field.  `Db::new` builds the list as `Vec::with_capacity
(replication_factor)` followed by one push: for a replication factor of at
least 1 the push fits and the live capacity is exactly the replication factor;
for a replication factor of 0 the push grows the empty allocation, to a
capacity Rust only promises to be at least the new length 1 (the exact value
is the allocator's).  The model records `max replication_factor 1`, the least
capacity consistent with that guarantee; no theorem below leans on the
factor-0 capacity beyond its being at least 1 with a one-element input, where
every admissible value gives the same result.  After construction no operation
pushes past the live capacity (`set_successor_list` pushes at most `capacity`
elements after clearing), so the field stays constant, as in the program. -/

structure Db where
  predecessor : Option Node
  fingerTable : List Finger
  successorList : List Node
  capacity : Nat
deriving DecidableEq

/-- `Db::new(node, replication_factor)`: no predecessor, finger table seeded
with `node`, successor list `[node]` with the live capacity described in the
section comment. -/
def Db.new (node : Node) (replicationFactor : Nat) : Db :=
  { predecessor := none
    fingerTable := initFingerTable node
    successorList := [node]
    capacity := max replicationFactor 1 }

/-- `Db::set_predecessor`: unconditionally stores `Some(predecessor)`. -/
def Db.setPredecessor (db : Db) (predecessor : Node) : Db :=
  { db with predecessor := some predecessor }

/-- `Db::unset_predecessor`: stores `None`. -/
def Db.unsetPredecessor (db : Db) : Db :=
  { db with predecessor := none }

/-- `Db::set_successor`: `state.successor_list[0] = successor` — an unguarded
index assignment, which panics when the successor list is empty; the panic is
embedded as `none`. -/
def Db.setSuccessor? (db : Db) (successor : Node) : Option Db :=
  match db.successorList with
  | [] => none
  | _ :: tail => some { db with successorList := successor :: tail }

/-- `Db::successor`: `state.successor_list[0].clone()` — an unguarded index,
which panics when the successor list is empty; the panic is embedded as `none`. -/
def Db.successor? (db : Db) : Option Node :=
  db.successorList.head?

/-- `Db::set_successor_list`: clears the list, then pushes
`successor_list[i]` for `i in 0..items` where `items` is the smaller of the
argument's length and the Vec's live capacity (see the section comment). -/
def Db.setSuccessorList (db : Db) (successorList : List Node) : Db :=
  let capacity := db.capacity
  let items := if successorList.length < capacity then successorList.length else capacity
  { db with successorList := (List.range items).filterMap (fun i => successorList[i]?) }

/-- `Db::closest_preceding_node(node_id, id)`: iterate the cloned finger table in
reverse (highest index first) and return the first finger node strictly between
`node_id` and `id` on the ring, if any. -/
def Db.closestPrecedingNode (db : Db) (nodeId id : Nat) : Option Node :=
  (db.fingerTable.reverse.find?
      (fun finger => isBetweenOnRingExclusive finger.node.id nodeId id)).map
    (fun finger => finger.node)

/-- helper for `Db.updateFinger?`: replace the `node` field of entry `i`,
preserving its start; `none` when the index is out of bounds (Rust panics). -/
def setFingerNode : List Finger → Nat → Node → Option (List Finger)
  | [], _, _ => none
  | finger :: rest, 0, node => some ({ finger with node := node } :: rest)
  | finger :: rest, i + 1, node => (setFingerNode rest i node).map (finger :: ·)

/-- `Db::update_finger`: `state.finger_table[finger_id].node = node` — an
unguarded index assignment; out-of-bounds panics are embedded as `none`. -/
def Db.updateFinger? (db : Db) (fingerId : Nat) (node : Node) : Option Db :=
  (setFingerNode db.fingerTable fingerId node).map
    (fun fingerTable => { db with fingerTable := fingerTable })

/-! ## Errors

The `ClientError` enum of the chord library is not under `src/`; it is modelled
from the spec (§7): `ConnectionFailed(detail)`, `NotInitialized`, `Unexpected`.
Its `Display` implementation is likewise modelled; only the `Display` of the
message carried by `ServiceError::Unexpected` depends on it. -/

inductive ClientError where
  | connectionFailed (detail : String)
  | notInitialized
  | unexpected (message : String)
deriving DecidableEq

/-- Modelled from the spec: a human-readable rendering of a client error
(the `Display` impl is not under `src/`; nothing proved here depends on the
exact strings). -/
def ClientError.display : ClientError → String
  | .connectionFailed detail => "Connection failed: " ++ detail
  | .notInitialized => "Client is not initialized"
  | .unexpected message => message

/-- `ServiceError` (`src/libs/chord/src/service/mod.rs`, `pub mod error`). -/
inductive ServiceError where
  | unexpected (message : String)
deriving DecidableEq

/-- `impl From<client::ClientError> for ServiceError`:
`Unexpected(format!("Client error: {}", err))`. -/
def ServiceError.ofClientError (e : ClientError) : ServiceError :=
  .unexpected ("Client error: " ++ e.display)

/-- the `?` operator on a client-call result inside a service method: `Ok` passes
through, `Err` is converted through `From<ClientError> for ServiceError`. -/
def liftClient : Except ClientError α → Except ServiceError α
  | .ok a => .ok a
  | .error e => .error (ServiceError.ofClientError e)

/-! ## The node service (`src/libs/chord/src/service/mod.rs`)

The remote peers reached through the `ClientsPool` are embedded as an oracle
giving each remote call's reply; every service operation also returns the list
of remote client calls it made, in order, so that "makes no remote call" is a
statement about that list. -/

structure NodeService where
  id : Nat
  addr : SocketAddr
  store : Db
deriving DecidableEq

/-- the replies of the remote peers: what `client.find_successor(id)` and
`client.ping()` return for a client obtained for a given node. -/
structure ClientOracle where
  findSuccessor : Node → Nat → Except ClientError Node
  ping : Node → Except ClientError Unit

/-- one remote client call made by a service operation. -/
inductive RemoteCall where
  | findSuccessor (target : Node) (id : Nat)
  | ping (target : Node)
deriving DecidableEq

/-- `NodeService::closest_preceding_node(id)`: the store's scan, with the node
built from `self.addr` as the fallback when no finger qualifies. -/
def NodeService.closestPrecedingNode (hash : SocketAddr → Nat) (svc : NodeService)
    (id : Nat) : Node :=
  (svc.store.closestPrecedingNode svc.id id).getD (Node.new hash svc.addr)

/-- `NodeService::find_successor(id)`: if `id ∈ (self.id, successor.id]` return the
stored successor, else ask the closest preceding node's client; `none` embeds the
panic of `store().successor()` on an empty successor list. -/
def NodeService.findSuccessor (hash : SocketAddr → Nat) (svc : NodeService)
    (oracle : ClientOracle) (id : Nat) :
    Option (Except ServiceError Node × List RemoteCall) :=
  match svc.store.successor? with
  | none => none
  | some successor =>
    if isBetweenOnRing id svc.id successor.id then
      some (.ok successor, [])
    else
      let n := svc.closestPrecedingNode hash id
      some (liftClient (oracle.findSuccessor n id), [.findSuccessor n id])

/-- `NodeService::join(node)`: ask `node`'s client for the successor of `self.id`;
on success store it with `set_successor` (whose empty-list panic is `none`), on
error propagate with the store untouched. -/
def NodeService.join (svc : NodeService) (oracle : ClientOracle) (node : Node) :
    Option (Except ServiceError Unit × NodeService × List RemoteCall) :=
  match oracle.findSuccessor node svc.id with
  | .error e =>
      some (.error (ServiceError.ofClientError e), svc, [.findSuccessor node svc.id])
  | .ok successor =>
    match svc.store.setSuccessor? successor with
    | none => none
    | some db => some (.ok (), { svc with store := db }, [.findSuccessor node svc.id])

/-- `NodeService::notify(node)`: set the predecessor to `node` when there is no
predecessor or `is_between_on_ring(node.id, predecessor.id, self.id)`; the Rust
method returns `()`, so the embedding is a total state transformer. -/
def NodeService.notify (svc : NodeService) (node : Node) : NodeService :=
  match svc.store.predecessor with
  | none => { svc with store := svc.store.setPredecessor node }
  | some predecessor =>
    if isBetweenOnRing node.id predecessor.id svc.id then
      { svc with store := svc.store.setPredecessor node }
    else
      svc

/-- `NodeService::check_predecessor()`: ping the predecessor if set; on
`ConnectionFailed` unset it and return `Ok`, on any other error propagate, on
success (or no predecessor) do nothing. -/
def NodeService.checkPredecessor (svc : NodeService) (oracle : ClientOracle) :
    Except ServiceError Unit × NodeService × List RemoteCall :=
  match svc.store.predecessor with
  | none => (.ok (), svc, [])
  | some predecessor =>
    match oracle.ping predecessor with
    | .ok _ => (.ok (), svc, [.ping predecessor])
    | .error (.connectionFailed _) =>
        (.ok (), { svc with store := svc.store.unsetPredecessor }, [.ping predecessor])
    | .error e =>
        (.error (ServiceError.ofClientError e), svc, [.ping predecessor])

/-! ## The capnp wire parser (`src/libs/capnp/src/parser/node.rs`)

An `ip_address::Reader` is embedded as the port plus the union discriminant
read by `which()`: each variant carries the `Result` of reading the list
(`Which::Ipv4(Err(_))` when the pointer is corrupt) and, inside, the `Option`
returned by `as_slice()` (`none` when the list data is unavailable, as for the
null pointer of a message whose union was never filled in).  Decoding is a pure
function of the reader, so it has no state to mutate. -/

instance {ε α : Type} [DecidableEq ε] [DecidableEq α] : DecidableEq (Except ε α) := fun a b =>
  match a, b with
  | .error x, .error y =>
    match decEq x y with
    | isTrue h => isTrue (by rw [h])
    | isFalse h => isFalse (fun hc => h (by injection hc))
  | .ok x, .ok y =>
    match decEq x y with
    | isTrue h => isTrue (by rw [h])
    | isFalse h => isFalse (fun hc => h (by injection hc))
  | .error _, .ok _ => isFalse (fun hc => Except.noConfusion hc)
  | .ok _, .error _ => isFalse (fun hc => Except.noConfusion hc)

inductive ParserError where
  | invalidIp (reason : String)
deriving DecidableEq

inductive IpAddressWhich where
  | ipv4 (octets : Except String (Option (List Nat)))
  | ipv6 (segments : Except String (Option (List Nat)))
deriving DecidableEq

structure IpAddressReader where
  port : Nat
  which : IpAddressWhich
deriving DecidableEq

/-- a message whose ip-address union was never set reads back as the first union
variant (ipv4, discriminant 0) with a null list whose `as_slice()` is
unavailable; the repository's own `test_invalid_ip_to_deserialization` shows
this reader decodes to the "Error parsing ipv4 address" parse error. -/
def IpAddressReader.unset : IpAddressReader :=
  { port := 0, which := .ipv4 (.ok none) }

/-- `impl TryFrom<ip_address::Reader> for SocketAddr`: 4 octets exactly for IPv4,
8 segments exactly for IPv6, every other shape is an `InvalidIp` parse error
carrying the message the code builds. -/
def SocketAddr.tryFromReader (addr : IpAddressReader) : Except ParserError SocketAddr :=
  match addr.which with
  | .ipv4 (.ok (some ip)) =>
    match ip with
    | [a, b, c, d] => .ok { ip := IpAddr.v4 a b c d, port := addr.port }
    | _ => .error (.invalidIp "IPv4 should contain 4 chunks")
  | .ipv4 (.ok none) => .error (.invalidIp "Error parsing ipv4 address")
  | .ipv6 (.ok (some ip)) =>
    match ip with
    | [s0, s1, s2, s3, s4, s5, s6, s7] =>
        .ok { ip := IpAddr.v6 s0 s1 s2 s3 s4 s5 s6 s7, port := addr.port }
    | _ => .error (.invalidIp "IPv6 should contain 8 chunks, each containing u16")
  | .ipv6 (.ok none) => .error (.invalidIp "Error parsing IPv6 address")
  | .ipv4 (.error err) => .error (.invalidIp ("Error parsing ipv4 address: " ++ err))
  | .ipv6 (.error err) => .error (.invalidIp ("Error parsing ipv6 address: " ++ err))

/-- `impl ResultBuilder<IpAddr> for ip_address::Builder`: IPv4 writes the list
of 4 octets, IPv6 the list of 8 segments. -/
def IpAddr.encode : IpAddr → IpAddressWhich
  | .v4 a b c d => .ipv4 (.ok (some [a, b, c, d]))
  | .v6 s0 s1 s2 s3 s4 s5 s6 s7 => .ipv6 (.ok (some [s0, s1, s2, s3, s4, s5, s6, s7]))

/-- `impl ResultBuilder<SocketAddr> for ip_address::Builder`: sets the port and
writes the IP variant. -/
def SocketAddr.encode (s : SocketAddr) : IpAddressReader :=
  { port := s.port, which := s.ip.encode }

/-! ## The gRPC wire parser (`src/libs/grpc/src/client.rs`)

`chord_proto::IpAddress` is a version tag (an `i32` holding an `IpVersion`
enum value) plus a byte vector; IPv6 travels as 16 bytes, two per segment,
big-endian.  The generated proto module is not under `src/`, so the two enum
tag values are modelled as distinct integers; nothing below depends on more. -/

structure GrpcIpAddress where
  version : Int
  address : List Nat
deriving DecidableEq

/-- Modelled from the proto definition (not under `src/`): `IpVersion::Ipv4 as i32`. -/
def ipVersionV4 : Int := 0

/-- Modelled from the proto definition (not under `src/`): `IpVersion::Ipv6 as i32`. -/
def ipVersionV6 : Int := 1

def GrpcIpAddress.isV4 (ip : GrpcIpAddress) : Bool := ip.version == ipVersionV4

def GrpcIpAddress.isV6 (ip : GrpcIpAddress) : Bool := ip.version == ipVersionV6

structure IpParseError where
  msg : String
deriving DecidableEq

/-- one 16-bit IPv6 segment from its two big-endian bytes
(`Ipv6Addr::from([u8; 16])`). -/
def segOfBytes (hi lo : Nat) : Nat := hi * 256 + lo

/-- `impl TryFrom<chord_proto::IpAddress> for IpAddr`: the code first rejects a
v4 tag with a length other than 4 and a v6 tag with a length other than 16,
then converts; tags matching neither version are "Invalid IP address".  The
guard and the conversion are merged into one match per version here (the
version tag matches at most one branch, so the meaning is unchanged). -/
def IpAddr.tryFromGrpc (ip : GrpcIpAddress) : Except IpParseError IpAddr :=
  if ip.isV4 then
    match ip.address with
    | [a, b, c, d] => .ok (.v4 a b c d)
    | _ => .error { msg := "Invalid IPv4 address" }
  else if ip.isV6 then
    match ip.address with
    | [b0, b1, b2, b3, b4, b5, b6, b7, b8, b9, b10, b11, b12, b13, b14, b15] =>
        .ok (.v6 (segOfBytes b0 b1) (segOfBytes b2 b3) (segOfBytes b4 b5)
          (segOfBytes b6 b7) (segOfBytes b8 b9) (segOfBytes b10 b11)
          (segOfBytes b12 b13) (segOfBytes b14 b15))
    | _ => .error { msg := "Invalid IPv6 address" }
  else
    .error { msg := "Invalid IP address" }

/-! ## Concrete nodes and services used by witnesses and counterexamples -/

def addrA : SocketAddr := { ip := .v4 127 0 0 1, port := 42001 }

def addrB : SocketAddr := { ip := .v4 127 0 0 1, port := 42002 }

def addrC : SocketAddr := { ip := .v4 127 0 0 1, port := 42003 }

/-- the node of the `closest_preceding_node` scenario (id 10). -/
def node10 : Node := { id := 10, addr := addrA }

/-- the scenario successor (id 20). -/
def node20 : Node := { id := 20, addr := addrB }

/-- the scenario predecessor (id 1). -/
def node1 : Node := { id := 1, addr := addrC }

/-! ## Store lemmas shared by several claims -/

/-- pulling the first `n` elements of `l` by index equals `l.take n`. -/
theorem range_filterMap_getElem (l : List α) (n : Nat) (h : n ≤ l.length) :
    (List.range n).filterMap (fun i => l[i]?) = l.take n := by
  induction n with
  | zero => simp
  | succ k ih =>
    have hk : k < l.length := Nat.lt_of_succ_le h
    rw [List.range_succ, List.filterMap_append, ih (Nat.le_of_succ_le h), List.take_succ]
    simp [List.getElem?_eq_getElem hk]

/-- `set_successor_list` stores exactly the first `min |L| c` elements of its
argument, where `c` is the successor vector's live capacity. -/
theorem setSuccessorList_eq_take (db : Db) (L : List Node) :
    (db.setSuccessorList L).successorList = L.take (min L.length db.capacity) := by
  unfold Db.setSuccessorList
  have hmin : (if L.length < db.capacity then L.length else db.capacity)
      = min L.length db.capacity := by
    rcases Nat.lt_or_ge L.length db.capacity with h | h
    · simp [h, Nat.min_eq_left (Nat.le_of_lt h)]
    · simp [Nat.not_lt.mpr h, Nat.min_eq_right h]
  simp only [hmin]
  exact range_filterMap_getElem L _ (Nat.min_le_left _ _)

/-- counterexample for C3: a store constructed with replication factor 0 holds
a successor vector whose live capacity grew to at least 1 on the seed push, so
`set_successor_list([node20])` keeps the element — length 1, not
`min(|L|, r) = min(1, 0) = 0` as the claim states for every `r`. -/
theorem c3_zero_factor_cex :
    ((Db.new node10 0).setSuccessorList [node20]).successorList = [node20]
      ∧ ((Db.new node10 0).setSuccessorList [node20]).successorList.length
          ≠ min [node20].length 0 := by
  decide

/-- C3 as amended: for every store constructed with replication factor `r ≥ 1`
(where the live capacity equals `r`), `set_successor_list(L)` leaves a
successor list of length `min |L| r` whose contents are the prefix
`L[0..min(|L|, r)]` in order; in general the truncation bound is the successor
vector's live capacity. -/
theorem c3_set_successor_list_takes_bounded_front :
    (∀ (db : Db) (L : List Node),
        (db.setSuccessorList L).successorList.length = min L.length db.capacity
          ∧ (db.setSuccessorList L).successorList
              = L.take (min L.length db.capacity))
      ∧ ∀ (node : Node) (r : Nat), 1 ≤ r → ∀ L : List Node,
          ((Db.new node r).setSuccessorList L).successorList.length = min L.length r
            ∧ ((Db.new node r).setSuccessorList L).successorList
                = L.take (min L.length r) := by
  have hgen : ∀ (db : Db) (L : List Node),
      (db.setSuccessorList L).successorList.length = min L.length db.capacity
        ∧ (db.setSuccessorList L).successorList = L.take (min L.length db.capacity) := by
    intro db L
    have ht := setSuccessorList_eq_take db L
    refine ⟨?_, ht⟩
    rw [ht, List.length_take]
    omega
  refine ⟨hgen, ?_⟩
  intro node r hr L
  have hc : (Db.new node r).capacity = r := by
    unfold Db.new
    dsimp only
    omega
  have h := hgen (Db.new node r) L
  rw [hc] at h
  exact h

/-- witness for C3 as amended: a four-element list on a factor-3 store is cut
to its first three elements. -/
theorem c3_set_successor_list_takes_bounded_front_witness :
    ((Db.new node10 3).setSuccessorList [node20, node1, node10, node20]).successorList
      = [node20, node1, node10] := by
  have h := (c3_set_successor_list_takes_bounded_front.2 node10 3 (by decide)
    [node20, node1, node10, node20]).2
  rw [h]
  decide

/-- C10: `successor()` and `set_successor(n)` index `successor_list[0]` without a
guard (the panic is embedded as `none`): both are `none` exactly when the
successor list is empty; `set_successor_list([])` leaves the list empty, after
which `successor()` reaches the panic; on a non-empty list both are defined. -/
theorem c10_successor_partial_on_empty_list :
    (∀ db : Db, db.successorList = [] →
        db.successor? = none ∧ ∀ n : Node, db.setSuccessor? n = none)
      ∧ (∀ (node : Node) (r : Nat),
          ((Db.new node r).setSuccessorList []).successorList = []
            ∧ ((Db.new node r).setSuccessorList []).successor? = none)
      ∧ ∀ db : Db, db.successorList ≠ [] →
          (db.successor?).isSome ∧ ∀ n : Node, (db.setSuccessor? n).isSome := by
  refine ⟨?_, ?_, ?_⟩
  · intro db h
    exact ⟨by simp [Db.successor?, h], fun n => by simp [Db.setSuccessor?, h]⟩
  · intro node r
    have h : ((Db.new node r).setSuccessorList []).successorList = [] := by
      rw [setSuccessorList_eq_take]; simp
    exact ⟨h, by simp [Db.successor?, h]⟩
  · intro db h
    rcases hl : db.successorList with _ | ⟨x, tail⟩
    · exact absurd hl h
    · exact ⟨by simp [Db.successor?, hl], fun n => by simp [Db.setSuccessor?, hl]⟩

/-- witness for C10 at a concrete store: after `set_successor_list([])` on a
fresh store, `successor()` hits the unguarded index. -/
theorem c10_witness : ((Db.new node10 3).setSuccessorList []).successor? = none :=
  (c10_successor_partial_on_empty_list.2.1 node10 3).2

/-- C9: decoding the capnp wire encoding of any valid socket address gives the
address back. -/
theorem c9_ip_roundtrip (s : SocketAddr) (h : s.isValid = true) :
    SocketAddr.tryFromReader s.encode = .ok s := by
  obtain ⟨ip, port⟩ := s
  cases ip <;> rfl

/-- witness for C9 at `127.0.0.1:8080` (the repository's own round-trip test
input). -/
theorem c9_ip_roundtrip_witness :
    SocketAddr.isValid { ip := .v4 127 0 0 1, port := 8080 } = true
      ∧ SocketAddr.tryFromReader (SocketAddr.encode { ip := .v4 127 0 0 1, port := 8080 })
          = .ok { ip := .v4 127 0 0 1, port := 8080 } :=
  ⟨by decide, c9_ip_roundtrip { ip := .v4 127 0 0 1, port := 8080 } (by decide)⟩

/-- C8: a wire `IpAddress` whose IPv4 payload is not exactly 4 octets, whose
IPv6 payload is not exactly 8 segments, or which has no variant set decodes to
an `InvalidIp`-class parse error naming the violation — in the capnp parser
and, with IPv6 travelling as 16 bytes (two per segment), in the gRPC parser;
both decoders are pure functions, so no state is touched. -/
theorem c8_malformed_ip_rejected :
    (∀ (port : Nat) (octets : List Nat), octets.length ≠ 4 →
        SocketAddr.tryFromReader { port := port, which := .ipv4 (.ok (some octets)) }
          = .error (.invalidIp "IPv4 should contain 4 chunks"))
      ∧ (∀ (port : Nat) (segments : List Nat), segments.length ≠ 8 →
          SocketAddr.tryFromReader { port := port, which := .ipv6 (.ok (some segments)) }
            = .error (.invalidIp "IPv6 should contain 8 chunks, each containing u16"))
      ∧ SocketAddr.tryFromReader IpAddressReader.unset
          = .error (.invalidIp "Error parsing ipv4 address")
      ∧ (∀ ip : GrpcIpAddress, ip.isV4 = true → ip.address.length ≠ 4 →
          IpAddr.tryFromGrpc ip = .error { msg := "Invalid IPv4 address" })
      ∧ (∀ ip : GrpcIpAddress, ip.isV6 = true → ip.address.length ≠ 16 →
          IpAddr.tryFromGrpc ip = .error { msg := "Invalid IPv6 address" })
      ∧ ∀ ip : GrpcIpAddress, ip.isV4 = false → ip.isV6 = false →
          IpAddr.tryFromGrpc ip = .error { msg := "Invalid IP address" } := by
  refine ⟨?_, ?_, rfl, ?_, ?_, ?_⟩
  · intro port octets h
    match octets, h with
    | [], _ => rfl
    | [_], _ => rfl
    | [_, _], _ => rfl
    | [_, _, _], _ => rfl
    | [_, _, _, _], h => exact absurd rfl h
    | _ :: _ :: _ :: _ :: _ :: _, _ => rfl
  · intro port segments h
    match segments, h with
    | [], _ => rfl
    | [_], _ => rfl
    | [_, _], _ => rfl
    | [_, _, _], _ => rfl
    | [_, _, _, _], _ => rfl
    | [_, _, _, _, _], _ => rfl
    | [_, _, _, _, _, _], _ => rfl
    | [_, _, _, _, _, _, _], _ => rfl
    | [_, _, _, _, _, _, _, _], h => exact absurd rfl h
    | _ :: _ :: _ :: _ :: _ :: _ :: _ :: _ :: _ :: _, _ => rfl
  · intro ip h4 hlen
    obtain ⟨v, address⟩ := ip
    unfold IpAddr.tryFromGrpc
    rw [h4]
    simp only [if_true]
    match address, hlen with
    | [], _ => rfl
    | [_], _ => rfl
    | [_, _], _ => rfl
    | [_, _, _], _ => rfl
    | [_, _, _, _], h => exact absurd rfl h
    | _ :: _ :: _ :: _ :: _ :: _, _ => rfl
  · intro ip h6 hlen
    have h4 : ip.isV4 = false := by
      have hv6 : ip.version = ipVersionV6 := beq_iff_eq.mp h6
      unfold GrpcIpAddress.isV4
      rw [hv6]
      decide
    obtain ⟨v, address⟩ := ip
    unfold IpAddr.tryFromGrpc
    rw [h4, h6]
    simp only [Bool.false_eq_true, if_false, if_true]
    match address, hlen with
    | [], _ => rfl
    | [_], _ => rfl
    | [_, _], _ => rfl
    | [_, _, _], _ => rfl
    | [_, _, _, _], _ => rfl
    | [_, _, _, _, _], _ => rfl
    | [_, _, _, _, _, _], _ => rfl
    | [_, _, _, _, _, _, _], _ => rfl
    | [_, _, _, _, _, _, _, _], _ => rfl
    | [_, _, _, _, _, _, _, _, _], _ => rfl
    | [_, _, _, _, _, _, _, _, _, _], _ => rfl
    | [_, _, _, _, _, _, _, _, _, _, _], _ => rfl
    | [_, _, _, _, _, _, _, _, _, _, _, _], _ => rfl
    | [_, _, _, _, _, _, _, _, _, _, _, _, _], _ => rfl
    | [_, _, _, _, _, _, _, _, _, _, _, _, _, _], _ => rfl
    | [_, _, _, _, _, _, _, _, _, _, _, _, _, _, _], _ => rfl
    | [_, _, _, _, _, _, _, _, _, _, _, _, _, _, _, _], h => exact absurd rfl h
    | _ :: _ :: _ :: _ :: _ :: _ :: _ :: _ :: _ :: _ :: _ :: _ :: _ :: _ :: _ :: _ :: _ :: _, _ => rfl
  · intro ip h4 h6
    unfold IpAddr.tryFromGrpc
    rw [h4, h6]
    rfl

/-- witness for C8: a 2-octet IPv4 payload on the capnp wire and a 2-byte IPv6
payload on the gRPC wire (the repository's own negative-test inputs). -/
theorem c8_malformed_ip_rejected_witness :
    SocketAddr.tryFromReader { port := 8080, which := .ipv4 (.ok (some [0, 0])) }
        = .error (.invalidIp "IPv4 should contain 4 chunks")
      ∧ IpAddr.tryFromGrpc { version := ipVersionV6, address := [127, 0] }
        = .error { msg := "Invalid IPv6 address" } :=
  ⟨c8_malformed_ip_rejected.1 8080 [0, 0] (by decide),
   c8_malformed_ip_rejected.2.2.2.2.1 { version := ipVersionV6, address := [127, 0] }
     (by decide) (by decide)⟩

/-- counterexample for C2: `set_successor_list([])` on a freshly constructed
store leaves `successor_list` empty, so the claimed invariant ("non-empty after
any single operation, including `set_successor_list` with the empty list") is
false at this input. -/
theorem c2_empty_set_successor_list_cex :
    ((Db.new node10 3).setSuccessorList []).successorList = [] := by decide

/-- C2 as amended: every store operation except `set_successor_list` preserves a
non-empty successor list (construction establishes it, `set_successor` cannot
complete on an empty list, the predecessor and finger operations do not touch
it), and `set_successor_list(L)` leaves it non-empty provided `L` is non-empty
and the successor vector's live capacity is at least 1 (which every
constructed store satisfies) — `set_successor_list([])` empties it. -/
theorem c2_successor_list_nonempty_amended :
    (∀ (node : Node) (r : Nat), (Db.new node r).successorList ≠ [])
      ∧ (∀ (db : Db) (n : Node), db.successorList ≠ [] →
          (db.setPredecessor n).successorList ≠ [])
      ∧ (∀ db : Db, db.successorList ≠ [] → db.unsetPredecessor.successorList ≠ [])
      ∧ (∀ (db db2 : Db) (n : Node), db.setSuccessor? n = some db2 →
          db2.successorList ≠ [])
      ∧ (∀ (db db2 : Db) (i : Nat) (n : Node), db.updateFinger? i n = some db2 →
          db.successorList ≠ [] → db2.successorList ≠ [])
      ∧ ∀ (db : Db) (L : List Node), L ≠ [] → 1 ≤ db.capacity →
          (db.setSuccessorList L).successorList ≠ [] := by
  refine ⟨?_, ?_, ?_, ?_, ?_, ?_⟩
  · intro node r
    simp [Db.new]
  · intro db n h
    simpa [Db.setPredecessor] using h
  · intro db h
    simpa [Db.unsetPredecessor] using h
  · intro db db2 n h
    unfold Db.setSuccessor? at h
    rcases hl : db.successorList with _ | ⟨x, tail⟩ <;> rw [hl] at h
    · exact absurd h (by simp)
    · cases h
      simp
  · intro db db2 i n h hne
    unfold Db.updateFinger? at h
    rcases hs : setFingerNode db.fingerTable i n with _ | ft <;> rw [hs] at h
    · exact absurd h (by simp)
    · cases h
      simpa using hne
  · intro db L hL hr
    rw [setSuccessorList_eq_take]
    intro hnil
    have hlen := congrArg List.length hnil
    rw [List.length_take] at hlen
    have hL1 : 1 ≤ L.length := by
      rcases L with _ | _
      · exact absurd rfl hL
      · simp
    simp only [List.length_nil] at hlen
    omega

/-- witness for C2 as amended: `set_successor_list` with a one-element list on a
fresh store with replication factor 3 keeps the successor list non-empty. -/
theorem c2_successor_list_nonempty_witness :
    ((Db.new node10 3).setSuccessorList [node20]).successorList ≠ [] :=
  c2_successor_list_nonempty_amended.2.2.2.2.2 (Db.new node10 3) [node20]
    (by decide) (by decide)

/-- C6: `join(bootstrap)` asks the bootstrap peer's client for the successor of
`self.id` (the single remote call recorded) and installs the answer as
`successor_list[0]`; if the client call fails it returns the error with the
service — store included — exactly as it was. -/
theorem c6_join_installs_or_propagates (svc : NodeService) (oracle : ClientOracle)
    (node : Node) :
    (∀ e : ClientError, oracle.findSuccessor node svc.id = .error e →
        svc.join oracle node
          = some (.error (ServiceError.ofClientError e), svc, [.findSuccessor node svc.id]))
      ∧ ∀ (n h : Node) (t : List Node), oracle.findSuccessor node svc.id = .ok n →
          svc.store.successorList = h :: t →
          svc.join oracle node
            = some (.ok (), { svc with store := { svc.store with successorList := n :: t } },
                [.findSuccessor node svc.id]) := by
  constructor
  · intro e he
    unfold NodeService.join
    rw [he]
  · intro n h t hn hl
    unfold NodeService.join
    rw [hn]
    unfold Db.setSuccessor?
    rw [hl]

/-- the bootstrap peer of the repository's `join_error_test` (port 42116). -/
def node116 : Node := { id := 116, addr := { ip := .v4 127 0 0 1, port := 42116 } }

/-- the joining service of the repository's `join_error_test`: id 2 at
`127.0.0.1:42001`, fresh store with replication factor 3. -/
def svcJoin : NodeService := { id := 2, addr := addrA, store := Db.new { id := 2, addr := addrA } 3 }

/-- a client pool whose every call fails with `Unexpected("Test")` (the mock of
`join_error_test`). -/
def oracleTestError : ClientOracle :=
  { findSuccessor := fun _ _ => .error (.unexpected "Test")
    ping := fun _ => .error (.unexpected "Test") }

/-- witness for C6: the failing join of `join_error_test` — error surfaced (with
the test's observed message) and service unchanged. -/
theorem c6_join_installs_or_propagates_witness :
    svcJoin.join oracleTestError node116
      = some (.error (ServiceError.unexpected "Client error: Test"), svcJoin,
          [.findSuccessor node116 svcJoin.id]) :=
  (c6_join_installs_or_propagates svcJoin oracleTestError node116).1 (.unexpected "Test") rfl

/-- C5 as amended: `check_predecessor()` with no predecessor returns success
with no client call; with a predecessor it pings it; on `ConnectionFailed` it
clears the predecessor and returns success; on a ping success it changes
nothing; and on ANY other client error — `NotInitialized` included — it
surfaces the error with the predecessor unchanged. -/
theorem c5_check_predecessor_amended (svc : NodeService) (oracle : ClientOracle) :
    (svc.store.predecessor = none → svc.checkPredecessor oracle = (.ok (), svc, []))
      ∧ (∀ p : Node, svc.store.predecessor = some p → oracle.ping p = .ok () →
          svc.checkPredecessor oracle = (.ok (), svc, [.ping p]))
      ∧ (∀ (p : Node) (d : String), svc.store.predecessor = some p →
          oracle.ping p = .error (.connectionFailed d) →
          svc.checkPredecessor oracle
            = (.ok (), { svc with store := svc.store.unsetPredecessor }, [.ping p]))
      ∧ ∀ (p : Node) (e : ClientError), svc.store.predecessor = some p →
          oracle.ping p = .error e → (∀ d : String, e ≠ .connectionFailed d) →
          svc.checkPredecessor oracle
            = (.error (ServiceError.ofClientError e), svc, [.ping p]) := by
  refine ⟨?_, ?_, ?_, ?_⟩
  · intro h
    unfold NodeService.checkPredecessor
    rw [h]
  · intro p hp hping
    unfold NodeService.checkPredecessor
    rw [hp]
    dsimp only
    rw [hping]
  · intro p d hp hping
    unfold NodeService.checkPredecessor
    rw [hp]
    dsimp only
    rw [hping]
  · intro p e hp hping hnc
    unfold NodeService.checkPredecessor
    rw [hp]
    dsimp only
    rw [hping]
    cases e with
    | connectionFailed d => exact absurd rfl (hnc d)
    | notInitialized => rfl
    | unexpected m => rfl

/-- the predecessor node of the `check_predecessor` tests (id 10, port 42010). -/
def node10pred : Node := { id := 10, addr := { ip := .v4 127 0 0 1, port := 42010 } }

/-- a service with id 8 whose predecessor is `node10pred` (the setup of
`when_predecessor_is_down_it_should_be_removed`). -/
def svcCheck : NodeService :=
  { id := 8, addr := addrA
    store := (Db.new { id := 8, addr := addrA } 3).setPredecessor node10pred }

/-- a client pool whose every call fails with `NotInitialized` (a client that
was created but never successfully connected). -/
def oracleNotInit : ClientOracle :=
  { findSuccessor := fun _ _ => .error .notInitialized
    ping := fun _ => .error .notInitialized }

/-- a client pool whose every call fails with `ConnectionFailed("Error")` (the
mock of `when_predecessor_is_down_it_should_be_removed`). -/
def oracleDown : ClientOracle :=
  { findSuccessor := fun _ _ => .error (.connectionFailed "Error")
    ping := fun _ => .error (.connectionFailed "Error") }

/-- counterexample for C5: when the predecessor's ping fails with
`NotInitialized`, the code does NOT treat it as a connection-type failure — the
call does not return success and the predecessor is not cleared, contradicting
the claim at this input (it surfaces the error and keeps the predecessor). -/
theorem c5_not_initialized_cex :
    ¬((svcCheck.checkPredecessor oracleNotInit).1 = .ok ()
        ∧ (svcCheck.checkPredecessor oracleNotInit).2.1.store.predecessor = none) := by
  decide

/-- witness for C5 as amended: the dead-predecessor scenario — ping fails with
`ConnectionFailed`, the predecessor is cleared, success is returned. -/
theorem c5_check_predecessor_amended_witness :
    svcCheck.checkPredecessor oracleDown
      = (.ok (), { svcCheck with store := svcCheck.store.unsetPredecessor },
          [.ping node10pred]) :=
  (c5_check_predecessor_amended svcCheck oracleDown).2.2.1 node10pred "Error" rfl rfl

/-- C4 as amended: `notify(candidate)` sets the predecessor to `candidate`
exactly when the current predecessor is empty or `candidate.id` lies on the
ring arc from `current_predecessor.id` to `self.id` that EXCLUDES
`current_predecessor.id` but INCLUDES `self.id` (the code tests
`is_between_on_ring`, the half-open predicate, not the exclusive one);
otherwise it leaves the service unchanged; the Rust method returns `()`, so it
never returns an error (the embedding is a total state transformer). -/
theorem c4_notify_amended (svc : NodeService) (candidate : Node) :
    ((svc.store.predecessor = none
        ∨ ∃ p : Node, svc.store.predecessor = some p
            ∧ isBetweenOnRing candidate.id p.id svc.id = true) →
      svc.notify candidate = { svc with store := svc.store.setPredecessor candidate })
      ∧ ((∀ p : Node, svc.store.predecessor = some p →
            isBetweenOnRing candidate.id p.id svc.id = false) →
          svc.store.predecessor ≠ none →
          svc.notify candidate = svc) := by
  constructor
  · intro h
    unfold NodeService.notify
    rcases h with h | ⟨p, hp, hb⟩
    · rw [h]
    · rw [hp]
      dsimp only
      rw [hb]
      simp
  · intro hall hne
    unfold NodeService.notify
    rcases hp : svc.store.predecessor with _ | p
    · exact absurd hp hne
    · dsimp only
      rw [hall p hp]
      simp

/-- the current predecessor of the C4 counterexample (id 5). -/
def node5 : Node := { id := 5, addr := { ip := .v4 127 0 0 1, port := 42005 } }

/-- a notify candidate carrying the service's own id 8 at another address. -/
def candidate8 : Node := { id := 8, addr := { ip := .v4 127 0 0 1, port := 42008 } }

/-- a service with id 8 whose predecessor is `node5`. -/
def svcNotify : NodeService :=
  { id := 8, addr := addrA
    store := (Db.new { id := 8, addr := addrA } 3).setPredecessor node5 }

/-- counterexample for C4: the candidate's id 8 equals `self.id`, so it is NOT
strictly between the predecessor's id 5 and `self.id` 8 (both endpoints
excluded) and the claim says the predecessor stays `node5`; the code
nevertheless installs the candidate, because its half-open predicate includes
the `self.id` endpoint. -/
theorem c4_notify_installs_self_id_cex :
    isBetweenOnRingExclusive candidate8.id node5.id svcNotify.id = false
      ∧ svcNotify.store.predecessor = some node5
      ∧ (svcNotify.notify candidate8).store.predecessor = some candidate8
      ∧ candidate8 ≠ node5 := by
  decide

/-- witness for C4 as amended: with an empty predecessor, notify installs the
candidate (spec §8 property 5). -/
theorem c4_notify_amended_witness :
    (NodeService.notify { id := 8, addr := addrA, store := Db.new { id := 8, addr := addrA } 3 }
        node5)
      = { id := 8, addr := addrA
          store := (Db.new { id := 8, addr := addrA } 3).setPredecessor node5 } :=
  (c4_notify_amended { id := 8, addr := addrA, store := Db.new { id := 8, addr := addrA } 3 }
      node5).1 (Or.inl rfl)

/-- C1 as amended: when `id` is outside the half-open arc
`(self.id, successor.id]` and the finger-table scan yields nothing — so the
closest preceding node falls back to `Node::new(self.addr)`, the node itself,
with `p.id == self.id` — `find_successor` does NOT short-circuit to the local
successor: it makes exactly one remote client call, a `find_successor(id)`
addressed to that fallback node, and returns that call's answer (or its error,
lifted to a service error). -/
theorem c1_find_successor_degenerate_amended (hash : SocketAddr → Nat)
    (svc : NodeService) (oracle : ClientOracle) (id : Nat) (s : Node)
    (hs : svc.store.successor? = some s)
    (hguard : isBetweenOnRing id svc.id s.id = false)
    (hcpn : svc.store.closestPrecedingNode svc.id id = none)
    (hself : (Node.new hash svc.addr).id = svc.id) :
    svc.findSuccessor hash oracle id
      = some (liftClient (oracle.findSuccessor (Node.new hash svc.addr) id),
          [.findSuccessor (Node.new hash svc.addr) id]) := by
  unfold NodeService.findSuccessor
  rw [hs]
  dsimp only
  rw [hguard]
  unfold NodeService.closestPrecedingNode
  rw [hcpn]
  simp

/-- the successor installed in the C1 service (id 16). -/
def node16 : Node := { id := 16, addr := addrB }

/-- a digest function placing the C1 service's own address at id 8; under it
`Node::new(self.addr)` reproduces the service's id, as `NodeService::new`
does. -/
def hash8 : SocketAddr → Nat := fun _ => 8

/-- a service with id 8 whose successor is `node16` and whose finger table is
still the fresh one (every finger points at the node itself, so no finger ever
qualifies for `closest_preceding_node`). -/
def svcFind : NodeService :=
  { id := 8, addr := addrA
    store := (((Db.new { id := 8, addr := addrA } 3).setSuccessor? node16)).getD
      (Db.new { id := 8, addr := addrA } 3) }

/-- a client pool whose every call fails with `ConnectionFailed` (an unreachable
peer). -/
def oracleUnreachable : ClientOracle :=
  { findSuccessor := fun _ _ => .error (.connectionFailed "peer down")
    ping := fun _ => .error (.connectionFailed "peer down") }

/-- a client pool whose `find_successor` always answers `node16`. -/
def oracleAnswers16 : ClientOracle :=
  { findSuccessor := fun _ _ => .ok node16
    ping := fun _ => .ok () }

/-- counterexample for C1: at id 20, outside `(8, 16]`, with an empty
finger-table scan and the fallback node carrying `p.id = self.id = 8`, the
claim says `find_successor` returns the stored successor `node16` with no
remote call; the code instead performs a remote `find_successor` call to the
fallback node — here the remote is unreachable, so the result is not even a
success. -/
theorem c1_find_successor_degenerate_cex :
    svcFind.store.successor? = some node16
      ∧ isBetweenOnRing 20 svcFind.id node16.id = false
      ∧ svcFind.store.closestPrecedingNode svcFind.id 20 = none
      ∧ (Node.new hash8 svcFind.addr).id = svcFind.id
      ∧ svcFind.findSuccessor hash8 oracleUnreachable 20 ≠ some (.ok node16, [])
      ∧ (svcFind.findSuccessor hash8 oracleUnreachable 20).map Prod.snd
          = some [RemoteCall.findSuccessor (Node.new hash8 svcFind.addr) 20] := by
  decide

/-- witness for C1 as amended, with a remote that answers: the degenerate case
still goes through one remote call to the fallback node. -/
theorem c1_find_successor_degenerate_amended_witness :
    svcFind.findSuccessor hash8 oracleAnswers16 20
      = some (liftClient (oracleAnswers16.findSuccessor (Node.new hash8 svcFind.addr) 20),
          [.findSuccessor (Node.new hash8 svcFind.addr) 20]) :=
  c1_find_successor_degenerate_amended hash8 svcFind oracleAnswers16 20 node16
    (by decide) (by decide) (by decide) (by decide)

/-- a reversed scan finds an element exactly when it sits at some position of
the original list, satisfies the predicate, and every LATER position fails the
predicate — i.e. `find?` on the reverse picks the match of highest index. -/
theorem reverse_find?_eq_some_iff {α : Type} {l : List α} {p : α → Bool} {b : α} :
    l.reverse.find? p = some b ↔
      p b = true ∧ ∃ i : Nat, i < l.length ∧ l[i]? = some b ∧
        ∀ j : Nat, i < j → ∀ x, l[j]? = some x → p x = false := by
  rw [List.find?_eq_some_iff_getElem]
  constructor
  · rintro ⟨hpb, k, hk, hkb, hprev⟩
    have hk2 : k < l.length := by simpa using hk
    refine ⟨hpb, l.length - 1 - k, by omega, ?_, ?_⟩
    · have h1 : l.reverse[k]? = some b := by rw [List.getElem?_eq_getElem hk, hkb]
      rw [List.getElem?_reverse' k (l.length - 1 - k) (by omega)] at h1
      exact h1
    · intro j hij x hjx
      have hj : j < l.length := by
        by_contra hcon
        rw [List.getElem?_eq_none (by omega)] at hjx
        exact Option.noConfusion hjx
      have hk3 : l.length - 1 - j < k := by omega
      have h2 := hprev (l.length - 1 - j) hk3
      have hb2 : l.length - 1 - j < l.reverse.length := by
        rw [List.length_reverse]; omega
      have h3 : l.reverse[l.length - 1 - j]? = l[j]? :=
        List.getElem?_reverse' _ _ (by omega)
      rw [List.getElem?_eq_getElem hb2, hjx] at h3
      have hx := Option.some.inj h3
      rw [hx] at h2
      simpa using h2
  · rintro ⟨hpb, i, hi, hib, hafter⟩
    have hb2 : l.length - 1 - i < l.reverse.length := by
      rw [List.length_reverse]; omega
    refine ⟨hpb, l.length - 1 - i, hb2, ?_, ?_⟩
    · have h3 : l.reverse[l.length - 1 - i]? = l[i]? :=
        List.getElem?_reverse' _ _ (by omega)
      rw [hib, List.getElem?_eq_getElem hb2] at h3
      exact Option.some.inj h3
    · intro j hj
      have hjlen : j < l.reverse.length := by omega
      have hjl : j < l.length := by simpa using hjlen
      have hm : i < l.length - 1 - j := by omega
      have hmb : l.length - 1 - j < l.length := by omega
      have h4 : l[l.length - 1 - j]? = some (l.get ⟨l.length - 1 - j, hmb⟩) := by
        rw [List.getElem?_eq_getElem hmb]
        simp
      have h5 := hafter (l.length - 1 - j) hm (l.get ⟨l.length - 1 - j, hmb⟩) h4
      have h3 : l.reverse[j]? = l[l.length - 1 - j]? :=
        List.getElem?_reverse' _ _ (by omega)
      rw [h4, List.getElem?_eq_getElem hjlen] at h3
      have h6 := Option.some.inj h3
      rw [h6]
      simp only [List.get_eq_getElem] at h5 ⊢
      simp [h5]

/-- the store of scenario S6: the node has id 10, the fingers with start below
20 point at `node20` and the remaining fingers at `node1` (the repository's
`test_closest_preceding_node` builds exactly this table via `update_finger`). -/
def scenarioDb : Db :=
  { predecessor := some node1
    fingerTable := (initFingerTable node10).map
      (fun f => if f.start < 20 then { f with node := node20 } else { f with node := node1 })
    successorList := [node10]
    capacity := 3 }

/-- C7: `closest_preceding_node(self_id, target_id)` returns `some n` exactly
when `n` is the node of a finger-table entry that lies strictly between
`self_id` and `target_id` on the ring and every HIGHER-index entry fails that
test (the scan runs from the highest index downward), and `none` exactly when
no entry qualifies; on the S6 store (id 10, fingers at 20 below start 20, at 1
elsewhere) it yields `node(1)`, `node(1)`, `none`, `node(20)`, `node(20)` for
targets 2, 10, 15, 21, 28. -/
theorem c7_closest_preceding_node_scan :
    (∀ (db : Db) (nodeId tid : Nat) (n : Node),
        db.closestPrecedingNode nodeId tid = some n ↔
          ∃ (i : Nat) (f : Finger), db.fingerTable[i]? = some f ∧ f.node = n ∧
            isBetweenOnRingExclusive n.id nodeId tid = true ∧
            ∀ (j : Nat) (g : Finger), i < j → db.fingerTable[j]? = some g →
              isBetweenOnRingExclusive g.node.id nodeId tid = false)
      ∧ (∀ (db : Db) (nodeId tid : Nat),
          db.closestPrecedingNode nodeId tid = none ↔
            ∀ f ∈ db.fingerTable, isBetweenOnRingExclusive f.node.id nodeId tid = false)
      ∧ scenarioDb.closestPrecedingNode 10 2 = some node1
      ∧ scenarioDb.closestPrecedingNode 10 10 = some node1
      ∧ scenarioDb.closestPrecedingNode 10 15 = none
      ∧ scenarioDb.closestPrecedingNode 10 21 = some node20
      ∧ scenarioDb.closestPrecedingNode 10 28 = some node20 := by
  refine ⟨?_, ?_, by decide, by decide, by decide, by decide, by decide⟩
  · intro db nodeId tid n
    unfold Db.closestPrecedingNode
    rw [Option.map_eq_some']
    constructor
    · rintro ⟨f, hf, hfn⟩
      rw [reverse_find?_eq_some_iff] at hf
      obtain ⟨hpf, i, hi, hif, hafter⟩ := hf
      refine ⟨i, f, hif, hfn, by rw [← hfn]; exact hpf, ?_⟩
      intro j g hij hjg
      exact hafter j hij g hjg
    · rintro ⟨i, f, hif, hfn, hbet, hafter⟩
      refine ⟨f, ?_, hfn⟩
      rw [reverse_find?_eq_some_iff]
      have hi : i < db.fingerTable.length := by
        by_contra hcon
        rw [List.getElem?_eq_none (by omega)] at hif
        exact Option.noConfusion hif
      refine ⟨by rw [hfn]; exact hbet, i, hi, hif, ?_⟩
      intro j hij x hjx
      exact hafter j x hij hjx
  · intro db nodeId tid
    unfold Db.closestPrecedingNode
    rw [Option.map_eq_none']
    rw [List.find?_eq_none]
    constructor
    · intro h f hf
      have := h f (List.mem_reverse.mpr hf)
      simpa using this
    · intro h f hf
      have := h f (List.mem_reverse.mp hf)
      simp [this]

/-- witness for C7 applying the none-characterization at the S6 store and
target 15: no finger qualifies, so the scan returns empty. -/
theorem c7_closest_preceding_node_scan_witness :
    scenarioDb.closestPrecedingNode 10 15 = none :=
  (c7_closest_preceding_node_scan.2.1 scenarioDb 10 15).mpr (by decide)
